import Mathlib

/-
  Shallow embedding of the RegisterMap structure from
  src/src/hotspot/share/runtime/registerMap.hpp.

  Modelling choices:
  * `address` and `intptr_t*` values are modelled as `Nat`; the casts
    `(address)` / `(intptr_t*)` in the source are identities on the value.
  * `reg_count` (`ConcreteRegisterImpl::number_of_registers`) is a
    platform constant not present under src/, so it is a parameter
    `regCount` of the operations that consult it.
  * `LocationValidType` is `julong` (64 bits), hence
    `location_valid_type_size = 64`; the packed bitset `_location_valid`
    is modelled as a word-indexed function, with the exact bit
    manipulations of the source (`&`, `|=`, `1 << (value % 64)`).
  * debug `assert`s are modelled as failure: `set_location` returns
    `Option RegisterMap`, `none` when one of its assertions fires
    (debug-build semantics); `verify` returns the `Bool` saying whether
    all of its per-register equality assertions hold.
  * The arrays `_location` and `_location_valid` are modelled as total
    functions `Nat → Nat`; entries outside the valid index range are
    never consulted by in-range operations.
-/

namespace RegMap

/-- `location_valid_type_size = sizeof(julong) * 8 = 64` bits per bitset word. -/
def locationValidTypeSize : Nat := 64

/-- `location_valid_size = (reg_count + location_valid_type_size - 1) / location_valid_type_size`. -/
def locationValidSize (regCount : Nat) : Nat :=
  (regCount + locationValidTypeSize - 1) / locationValidTypeSize

/-- Modelled from the spec: the per-architecture fallback resolver
`pd_location`, declared through `CPU_HEADER(registerMap)` and not present
under src/.  The spec describes it as the platform-specific function used
as fallback.  The shared code invokes the scalar overload as
`pd_location(reg)` (register only) and the multi-slot overload as
`pd_location(base_reg, slot_idx)`; the model gives each overload exactly
the arguments the shared code passes it. -/
structure PlatformFallback where
  scalar : Nat → Nat
  multi : Nat → Int → Nat

/-- The fields of `RegisterMap` (registerMap.hpp lines 74-87).
`_location` and `_location_valid` are the location table and the packed
validity bitset; `_chunk` is the continuation stack-chunk handle
(`none` models a null handle); `_chunk_index` is a C++ `int`, modelled
as `Int`. -/
structure RegisterMap where
  _location : Nat → Nat
  _location_valid : Nat → Nat
  _include_argument_oops : Bool
  _thread : Nat
  _chunk : Option Nat
  _chunk_index : Int
  _update_map : Bool
  _process_frames : Bool
  _walk_cont : Bool
  _skip_missing : Bool
  _async : Bool

/-- The `nullptr` value passed for `sp` by the slot overload of `location`. -/
def nullptr : Nat := 0

/-- The validity test of `location` (line 105):
`_location_valid[index] & ((LocationValidType)1 << (reg->value() % location_valid_type_size))`
is nonzero, with `index = reg->value() / location_valid_type_size`. -/
def RegisterMap.isLocationValid (m : RegisterMap) (reg : Nat) : Bool :=
  m._location_valid (reg / locationValidTypeSize) &&&
    ((1 : Nat) <<< (reg % locationValidTypeSize)) != 0

/-- `address location(VMReg reg, intptr_t* sp) const` (lines 101-110):
returns the stored table entry when the register's validity bit is set,
otherwise delegates to `pd_location(reg)`.  The parameter `sp` is not
used by the body. -/
def RegisterMap.location (m : RegisterMap) (pd : PlatformFallback) (reg : Nat) (sp : Nat) : Nat :=
  if m.isLocationValid reg then m._location reg else pd.scalar reg

/-- `address location(VMReg base_reg, int slot_idx) const` (lines 112-118):
for `slot_idx > 0` delegates to `pd_location(base_reg, slot_idx)`,
otherwise calls `location(base_reg, nullptr)`. -/
def RegisterMap.location_slot (m : RegisterMap) (pd : PlatformFallback)
    (base_reg : Nat) (slot_idx : Int) : Nat :=
  if slot_idx > 0 then pd.multi base_reg slot_idx else m.location pd base_reg nullptr

/-- `address trusted_location(VMReg reg) const` (lines 120-122): raw table
read with no validity check. -/
def RegisterMap.trusted_location (m : RegisterMap) (reg : Nat) : Nat :=
  m._location reg

/-- `void verify(RegisterMap& other)` (lines 124-128): asserts
`_location[i] == other._location[i]` for every `i` in `[0, reg_count)`.
Modelled as the `Bool` saying whether every assertion holds. -/
def RegisterMap.verify (regCount : Nat) (m other : RegisterMap) : Bool :=
  (List.range regCount).all fun i => m._location i == other._location i

/-- `void set_location(VMReg reg, address loc)` (lines 130-138): asserts
the register and word index in range and `_update_map` set, then stores
`loc` in the table and ORs the register's bit into the bitset.  The
assertions are modelled as failure (`none`), the debug-build semantics. -/
def RegisterMap.set_location (regCount : Nat) (m : RegisterMap) (reg : Nat) (loc : Nat) :
    Option RegisterMap :=
  if reg < regCount ∧ reg / locationValidTypeSize < locationValidSize regCount ∧
      m._update_map = true then
    some { m with
      _location := fun i => if i = reg then loc else m._location i,
      _location_valid := fun j =>
        if j = reg / locationValidTypeSize then
          m._location_valid j ||| ((1 : Nat) <<< (reg % locationValidTypeSize))
        else m._location_valid j }
  else
    none

/-- Modelled from the spec: `clear()` is declared at line 141 but its body
(registerMap.cpp) is not under src/.  Spec §4.1: "zeroes the validity
bitset (all registers become unknown; subsequent lookups fall back to
platform derivation)". -/
def RegisterMap.clear (m : RegisterMap) : RegisterMap :=
  { m with _location_valid := fun _ => 0 }

/-- Modelled from the spec: `set_stack_chunk(chunk)` is declared at line
156 but its body is not under src/.  Spec §4.3: "attaches a new segment
handle and increments chunkIndex". -/
def RegisterMap.set_stack_chunk (m : RegisterMap) (chunk : Nat) : RegisterMap :=
  { m with _chunk := some chunk, _chunk_index := m._chunk_index + 1 }

/-- `int stack_chunk_index() const` (line 157). -/
def RegisterMap.stack_chunk_index (m : RegisterMap) : Int :=
  m._chunk_index

/-- `void set_stack_chunk_index(int index)` (line 158). -/
def RegisterMap.set_stack_chunk_index (m : RegisterMap) (index : Int) : RegisterMap :=
  { m with _chunk_index := index }

/-- `stackChunkHandle stack_chunk() const` (line 155). -/
def RegisterMap.stack_chunk (m : RegisterMap) : Option Nat :=
  m._chunk

/-- `bool in_cont() const` (line 153): whether the chunk handle is non-null. -/
def RegisterMap.in_cont (m : RegisterMap) : Bool :=
  m._chunk.isSome

/-- `bool update_map() const` (line 147). -/
def RegisterMap.update_map (m : RegisterMap) : Bool :=
  m._update_map

/-- Modelled from the spec: the thread-binding constructor
`RegisterMap(JavaThread*, bool, bool, bool)` is declared at line 97 but
its body (registerMap.cpp) is not under src/.  Spec §4.4: the initialized
state has the validity bitset empty and the chunk unattached; the three
booleans configure updating, frame processing and continuation walking.
The location table is uninitialized in the source, so its (arbitrary)
initial contents are a parameter `garbage`. -/
def RegisterMap.init (garbage : Nat → Nat) (thread : Nat)
    (update_map process_frames walk_cont : Bool) : RegisterMap :=
  { _location := garbage
    _location_valid := fun _ => 0
    _include_argument_oops := true
    _thread := thread
    _chunk := none
    _chunk_index := 0
    _update_map := update_map
    _process_frames := process_frames
    _walk_cont := walk_cont
    _skip_missing := false
    _async := false }

/- Helper lemmas about the packed bitset. -/

/-- Bridging lemma: the source's mask test agrees with `Nat.testBit`. -/
theorem and_shift_ne_zero_iff (x k : Nat) :
    (x &&& ((1 : Nat) <<< k) != 0) = x.testBit k := by
  have h1 : (1 : Nat) <<< k = 2 ^ k := by
    rw [Nat.shiftLeft_eq, Nat.one_mul]
  rw [h1, Nat.and_two_pow]
  cases h : x.testBit k <;> simp [h]

/-- Setting a register's bit makes that register's validity test succeed. -/
theorem or_shift_self_ne_zero (v k : Nat) :
    ((v ||| ((1 : Nat) <<< k)) &&& ((1 : Nat) <<< k) != 0) = true := by
  rw [and_shift_ne_zero_iff]
  simp [Nat.testBit_or, Nat.testBit_two_pow_self,
    show (1 : Nat) <<< k = 2 ^ k by rw [Nat.shiftLeft_eq, Nat.one_mul]]

/-- Setting one bit leaves the test of a different bit unchanged. -/
theorem or_shift_other (v j k : Nat) (h : j ≠ k) :
    ((v ||| ((1 : Nat) <<< j)) &&& ((1 : Nat) <<< k) != 0) =
      (v &&& ((1 : Nat) <<< k) != 0) := by
  rw [and_shift_ne_zero_iff, and_shift_ne_zero_iff]
  simp [Nat.testBit_or, Nat.testBit_two_pow_of_ne h,
    show (1 : Nat) <<< j = 2 ^ j by rw [Nat.shiftLeft_eq, Nat.one_mul]]

/- Concrete instances used by witnesses. -/

/-- A concrete platform fallback resolver for witness instantiations. -/
def pdW : PlatformFallback :=
  ⟨fun r => r + 1000, fun r i => r + i.toNat + 2000⟩

/-- A concrete freshly constructed map for witness instantiations. -/
def mW : RegisterMap :=
  RegisterMap.init (fun i => i + 7) 0 true true false

/-- The map obtained from `mW` by recording register 0 at address 5. -/
def mWset : RegisterMap :=
  (mW.set_location 4 0 5).getD mW

/-- Claim C1: for a register ordinal `r` in `[0, reg_count)`, `location(r, sp)`
returns the platform-fallback value when `r`'s validity bit is not set — never
the (possibly stale or garbage) table entry — and the trusted stored address
when the bit is set. -/
theorem location_dispatch_on_validity (regCount : Nat) (m : RegisterMap)
    (pd : PlatformFallback) (r sp : Nat) (h : r < regCount) :
    (m.isLocationValid r = false → m.location pd r sp = pd.scalar r) ∧
    (m.isLocationValid r = true → m.location pd r sp = m.trusted_location r) := by
  constructor <;> intro hv <;>
    simp [RegisterMap.location, RegisterMap.trusted_location, hv]

/-- Witness for C1 at `regCount = 4`, `r = 0`. -/
theorem location_dispatch_on_validity_witness :
    (mW.isLocationValid 0 = false → mW.location pdW 0 0 = pdW.scalar 0) ∧
    (mW.isLocationValid 0 = true → mW.location pdW 0 0 = mW.trusted_location 0) :=
  location_dispatch_on_validity 4 mW pdW 0 0 (by decide)

/-- Claim C2: `set_location` on a map constructed with updating disabled fails
its assertion (modelled as `none`), and `location` for that register still
returns the platform-fallback value, not the attempted write. -/
theorem set_location_update_disabled (regCount : Nat) (garbage : Nat → Nat)
    (thread : Nat) (pf wc : Bool) (pd : PlatformFallback) (r loc sp : Nat) :
    (RegisterMap.init garbage thread false pf wc).set_location regCount r loc = none ∧
    (RegisterMap.init garbage thread false pf wc).location pd r sp = pd.scalar r := by
  constructor
  · simp [RegisterMap.set_location, RegisterMap.init]
  · simp [RegisterMap.location, RegisterMap.isLocationValid, RegisterMap.init]

/-- Claim C3: after a successful `set_location(r, loc)` on a map with updating
enabled, `location(r, sp)` returns `loc` for every `sp`, and
`trusted_location(r)` returns `loc`. -/
theorem set_location_then_location (regCount : Nat) (m : RegisterMap)
    (pd : PlatformFallback) (r loc sp : Nat) (hr : r < regCount)
    (hu : m._update_map = true) :
    ∃ m', m.set_location regCount r loc = some m' ∧
      m'.location pd r sp = loc ∧ m'.trusted_location r = loc := by
  have hidx : r / locationValidTypeSize < locationValidSize regCount := by
    unfold locationValidSize locationValidTypeSize
    omega
  unfold RegisterMap.set_location
  rw [if_pos ⟨hr, hidx, hu⟩]
  refine ⟨_, rfl, ?_, ?_⟩
  · unfold RegisterMap.location RegisterMap.isLocationValid
    simp only [if_pos rfl, or_shift_self_ne_zero, if_pos]
  · unfold RegisterMap.trusted_location
    simp

/-- Witness for C3 at `regCount = 4`, `r = 0`, `loc = 5`. -/
theorem set_location_then_location_witness :
    ∃ m', mW.set_location 4 0 5 = some m' ∧
      m'.location pdW 0 3 = 5 ∧ m'.trusted_location 0 = 5 :=
  set_location_then_location 4 mW pdW 0 5 3 (by decide) rfl

/-- Claim C4: the slot overload of `location` always delegates to the platform
multi-slot resolver when `slot_idx > 0`, bypassing the validity bitset, and for
`slot_idx = 0` behaves exactly as the scalar lookup at any frame pointer. -/
theorem location_slot_dispatch (m : RegisterMap) (pd : PlatformFallback)
    (base_reg sp : Nat) (slot_idx : Int) :
    (slot_idx > 0 → m.location_slot pd base_reg slot_idx = pd.multi base_reg slot_idx) ∧
    (slot_idx = 0 → m.location_slot pd base_reg slot_idx = m.location pd base_reg sp) := by
  constructor
  · intro h
    rw [RegisterMap.location_slot, if_pos h]
  · intro h
    subst h
    rw [RegisterMap.location_slot, if_neg (by omega)]
    rfl

/-- Witness for C4 at `slot_idx = 1` (multi-slot path) and `slot_idx = 0`
(scalar path, frame pointer 5). -/
theorem location_slot_dispatch_witness :
    (mWset.location_slot pdW 0 1 = pdW.multi 0 1) ∧
    (mWset.location_slot pdW 0 0 = mWset.location pdW 0 5) :=
  ⟨(location_slot_dispatch mWset pdW 0 5 1).1 (by decide),
   (location_slot_dispatch mWset pdW 0 5 0).2 rfl⟩

/-- Claim C5: after `clear()`, every register's validity bit is false and every
subsequent lookup delegates to platform derivation, regardless of previously
recorded locations. -/
theorem clear_resets_validity (m : RegisterMap) (pd : PlatformFallback) (r sp : Nat) :
    m.clear.isLocationValid r = false ∧ m.clear.location pd r sp = pd.scalar r := by
  constructor <;>
    simp [RegisterMap.clear, RegisterMap.isLocationValid, RegisterMap.location]

/-- Claim C6: `verify(other)` holds exactly when the two raw location tables
agree at every register index in `[0, reg_count)`; any mismatch makes it fail. -/
theorem verify_iff_tables_equal (regCount : Nat) (m other : RegisterMap) :
    RegisterMap.verify regCount m other = true ↔
      ∀ i, i < regCount → m._location i = other._location i := by
  simp [RegisterMap.verify, List.all_eq_true, List.mem_range]

/-- Claim C7: `set_stack_chunk(c)` attaches the chunk handle and increments the
chunk index, so `stack_chunk_index()` strictly increases across successive
calls on the same instance. -/
theorem set_stack_chunk_increments_index (m : RegisterMap) (c : Nat) :
    (m.set_stack_chunk c).stack_chunk = some c ∧
    (m.set_stack_chunk c).stack_chunk_index = m.stack_chunk_index + 1 ∧
    m.stack_chunk_index < (m.set_stack_chunk c).stack_chunk_index := by
  refine ⟨rfl, rfl, ?_⟩
  show m._chunk_index < m._chunk_index + 1
  omega

/-- Claim C8: a successful `set_location(r, loc)` modifies only register `r`'s
entry — every other register's table entry, validity bit, `location` and
`trusted_location` results are unchanged — and none of the other fields of the
map change. -/
theorem set_location_frame_effect (regCount : Nat) (m m' : RegisterMap) (r loc : Nat)
    (h : m.set_location regCount r loc = some m') :
    (∀ r', r' ≠ r →
      m'._location r' = m._location r' ∧
      m'.isLocationValid r' = m.isLocationValid r' ∧
      (∀ pd sp, m'.location pd r' sp = m.location pd r' sp) ∧
      m'.trusted_location r' = m.trusted_location r') ∧
    m'._include_argument_oops = m._include_argument_oops ∧
    m'._thread = m._thread ∧ m'._chunk = m._chunk ∧
    m'._chunk_index = m._chunk_index ∧ m'._update_map = m._update_map ∧
    m'._process_frames = m._process_frames ∧ m'._walk_cont = m._walk_cont := by
  unfold RegisterMap.set_location at h
  split at h
  case isFalse => simp at h
  case isTrue hc =>
    injection h with h
    subst h
    refine ⟨?_, rfl, rfl, rfl, rfl, rfl, rfl, rfl⟩
    intro r' hne
    have hloc : (if r' = r then loc else m._location r') = m._location r' :=
      if_neg hne
    have hvalid :
        RegisterMap.isLocationValid
          { m with
            _location := fun i => if i = r then loc else m._location i,
            _location_valid := fun j =>
              if j = r / locationValidTypeSize then
                m._location_valid j ||| ((1 : Nat) <<< (r % locationValidTypeSize))
              else m._location_valid j } r' = m.isLocationValid r' := by
      unfold RegisterMap.isLocationValid
      by_cases hw : r' / locationValidTypeSize = r / locationValidTypeSize
      · rw [hw]
        simp only [if_pos rfl, if_true, eq_self_iff_true]
        have hbit : r % locationValidTypeSize ≠ r' % locationValidTypeSize := by
          unfold locationValidTypeSize at *
          omega
        rw [or_shift_other _ _ _ hbit]
      · simp only [if_neg hw]
    refine ⟨hloc, hvalid, ?_, hloc⟩
    intro pd sp
    unfold RegisterMap.location
    rw [hvalid]
    by_cases hv : m.isLocationValid r' = true
    · rw [if_pos hv, if_pos hv]
      exact hloc
    · rw [if_neg hv, if_neg hv]

/-- Witness for C8: recording register 0 in `mW` leaves all other registers and
all configuration fields unchanged. -/
theorem set_location_frame_effect_witness :
    (∀ r', r' ≠ 0 →
      mWset._location r' = mW._location r' ∧
      mWset.isLocationValid r' = mW.isLocationValid r' ∧
      (∀ pd sp, mWset.location pd r' sp = mW.location pd r' sp) ∧
      mWset.trusted_location r' = mW.trusted_location r') ∧
    mWset._include_argument_oops = mW._include_argument_oops ∧
    mWset._thread = mW._thread ∧ mWset._chunk = mW._chunk ∧
    mWset._chunk_index = mW._chunk_index ∧ mWset._update_map = mW._update_map ∧
    mWset._process_frames = mW._process_frames ∧ mWset._walk_cont = mW._walk_cont :=
  set_location_frame_effect 4 mW mWset 0 5 rfl

/-- Claim C9: for every `slot_idx ≤ 0`, including negative values, the slot
overload takes the scalar path and equals `location(base_reg, nullptr)`. -/
theorem location_slot_nonpositive (m : RegisterMap) (pd : PlatformFallback)
    (base_reg : Nat) (slot_idx : Int) (h : slot_idx ≤ 0) :
    m.location_slot pd base_reg slot_idx = m.location pd base_reg nullptr := by
  rw [RegisterMap.location_slot, if_neg (by omega)]

/-- Witness for C9 at the negative slot index `-1`. -/
theorem location_slot_nonpositive_witness :
    mWset.location_slot pdW 2 (-1) = mWset.location pdW 2 nullptr :=
  location_slot_nonpositive mWset pdW 2 (-1) (by decide)

/-- Claim C10: `set_stack_chunk_index(i)` sets the chunk index to exactly `i`
for any `i` — including values below the current index — without changing the
chunk handle, so index monotonicity is not enforced by the type. -/
theorem set_stack_chunk_index_exact (m : RegisterMap) (i : Int) :
    (m.set_stack_chunk_index i).stack_chunk_index = i ∧
    (m.set_stack_chunk_index i).stack_chunk = m.stack_chunk ∧
    (m.set_stack_chunk_index (m.stack_chunk_index - 1)).stack_chunk_index <
      m.stack_chunk_index := by
  refine ⟨rfl, rfl, ?_⟩
  show m._chunk_index - 1 < m._chunk_index
  omega

end RegMap
